import Mathlib

/-!
Verification development for the starter repository's core logic:
retry classification and backoff for the query client, the HTTP request
layer's body parsing and status classification, error-message
classification, the optimistic update/delete mutation protocol on the
example cache, the Zod form-validation schemas, and theme resolution.
Each definition is a shallow embedding of the corresponding source
function.
-/

namespace Starter

/-! ## Retry classification and backoff (src/unnamed/part_005) -/

/-- Errors seen by the retry policy: a structured `ApiError` carrying an
HTTP status, or any other error (network failure etc.). -/
inductive FetchError
  | apiError (status : Int)
  | other
  deriving DecidableEq, Repr

/-- `RETRYABLE_4XX_CODES = [408, 429]` from the source. -/
def RETRYABLE_4XX_CODES : List Int := [408, 429]

/-- `DEFAULT_RETRY_COUNT = 3` from the source. -/
def DEFAULT_RETRY_COUNT : Nat := 3

/-- `MUTATION_RETRY_COUNT = 1` from the source. -/
def MUTATION_RETRY_COUNT : Nat := 1

/-- Shallow embedding of `shouldRetry(failureCount, error, maxRetries)`. -/
def shouldRetry (failureCount : Nat) (error : FetchError) (maxRetries : Nat) : Bool :=
  if failureCount ≥ maxRetries then false
  else
    match error with
    | .other => true
    | .apiError status =>
      if status ≥ 500 then true
      else if RETRYABLE_4XX_CODES.contains status then true
      else if 400 ≤ status ∧ status < 500 then false
      else true

/-- Shallow embedding of `calculateRetryDelay(attemptIndex)`:
`min(1000 * 2^attemptIndex, 30000)`. -/
def calculateRetryDelay (attemptIndex : Nat) : Nat :=
  min (1000 * 2 ^ attemptIndex) 30000

/-- Retry-relevant options of one side (queries or mutations) of the
query client configuration. -/
structure RetryOptions where
  retry : Nat → FetchError → Bool
  retryDelay : Nat → Nat

/-- The parts of `queryClientConfig` relevant to retry behaviour,
embedded from the source. -/
structure QueryClientConfig where
  queriesStaleTime : Nat
  queriesGcTime : Nat
  queries : RetryOptions
  mutations : RetryOptions

/-- Shallow embedding of the `queryClientConfig` object. -/
def queryClientConfig : QueryClientConfig :=
  { queriesStaleTime := 5 * 60 * 1000
    queriesGcTime := 30 * 60 * 1000
    queries :=
      { retry := fun failureCount error => shouldRetry failureCount error DEFAULT_RETRY_COUNT
        retryDelay := calculateRetryDelay }
    mutations :=
      { retry := fun failureCount error => shouldRetry failureCount error MUTATION_RETRY_COUNT
        retryDelay := calculateRetryDelay } }

/-- The spec's wording of the retry rule, written independently of the
source: false once attempts are exhausted; true for non-HTTP errors;
for an HTTP error, true when status ≥ 500, true for exactly 408 or 429,
false for any other status in [400, 500), true outside both ranges. -/
def shouldRetrySpec (failureCount : Nat) (error : FetchError) (maxRetries : Nat) : Bool :=
  decide (failureCount < maxRetries) &&
    match error with
    | .other => true
    | .apiError s =>
      decide (s ≥ 500) || decide (s = 408) || decide (s = 429) ||
        !(decide (400 ≤ s) && decide (s < 500))

/-- C1: `shouldRetry` agrees with the spec's rule at every input, and the
four quoted examples hold: retry a 503 with budget left, never a 404,
stop at the budget, retry a 429 on the first failure. -/
theorem shouldRetry_correct :
    (∀ (failureCount maxRetries : Nat) (error : FetchError),
      shouldRetry failureCount error maxRetries = shouldRetrySpec failureCount error maxRetries) ∧
    shouldRetry 2 (.apiError 503) 3 = true ∧
    shouldRetry 2 (.apiError 404) 3 = false ∧
    shouldRetry 3 (.apiError 503) 3 = false ∧
    shouldRetry 0 (.apiError 429) 1 = true := by
  refine ⟨fun failureCount maxRetries error => ?_, by decide, by decide, by decide, by decide⟩
  unfold shouldRetry shouldRetrySpec RETRYABLE_4XX_CODES
  rcases error with s | _
  · by_cases hfc : failureCount ≥ maxRetries
    · simp [hfc, Nat.not_lt.mpr hfc]
    · simp only [if_neg hfc, decide_eq_true (Nat.lt_of_not_le hfc), Bool.true_and]
      by_cases h5 : (s : Int) ≥ 500
      · simp [h5]
      · by_cases h8 : s = 408
        · simp [h8]
        · by_cases h9 : s = 429
          · simp [h9]
          · by_cases h4 : 400 ≤ s ∧ s < 500
            · simp [h5, h8, h9, h4]
            · simp [h5, h8, h9, h4]
              omega
  · by_cases hfc : failureCount ≥ maxRetries
    · simp [hfc, Nat.not_lt.mpr hfc]
    · simp [hfc, Nat.lt_of_not_le hfc]

/-- C3: the backoff delay is `min(1000 * 2^attemptIndex, 30000)`, the
quoted values hold, and the query client configures the very same delay
function for queries and for mutations. -/
theorem calculateRetryDelay_correct :
    (∀ attemptIndex : Nat, calculateRetryDelay attemptIndex = min (1000 * 2 ^ attemptIndex) 30000) ∧
    calculateRetryDelay 0 = 1000 ∧
    calculateRetryDelay 1 = 2000 ∧
    calculateRetryDelay 2 = 4000 ∧
    calculateRetryDelay 10 = 30000 ∧
    queryClientConfig.queries.retryDelay = calculateRetryDelay ∧
    queryClientConfig.mutations.retryDelay = calculateRetryDelay :=
  ⟨fun _ => rfl, by decide, by decide, by decide, by decide, rfl, rfl⟩

/-! ## HTTP request layer (src/src/lib/api-client.ts) -/

/-- JSON-like values: the possible results of `response.json()` and the
payload shapes inspected by the error handler. -/
inductive JVal
  | jnull
  | jbool (b : Bool)
  | jnum (n : Int)
  | jstr (s : String)
  | jarr (elems : List JVal)
  | jobj (fields : List (String × JVal))

/-- `startsWithL pat l`: `l` starts with `pat`. -/
def startsWithL : List Char → List Char → Bool
  | [], _ => true
  | _ :: _, [] => false
  | p :: ps, c :: cs => p = c && startsWithL ps cs

/-- `containsL pat l`: `pat` occurs contiguously inside `l`. -/
def containsL (pat : List Char) : List Char → Bool
  | [] => startsWithL pat []
  | c :: cs => startsWithL pat (c :: cs) || containsL pat cs

/-- JS `s.includes(pat)` on strings. -/
def strIncludes (s pat : String) : Bool := containsL pat.data s.data

theorem startsWithL_iff (pat l : List Char) :
    startsWithL pat l = true ↔ ∃ rest, l = pat ++ rest := by
  induction pat generalizing l with
  | nil => simp [startsWithL]
  | cons p ps ih =>
    cases l with
    | nil => simp [startsWithL]
    | cons c cs =>
      simp only [startsWithL, Bool.and_eq_true, decide_eq_true_eq, ih, List.cons_append,
        List.cons.injEq]
      constructor
      · rintro ⟨rfl, rest, rfl⟩
        exact ⟨rest, rfl, rfl⟩
      · rintro ⟨rest, rfl, rfl⟩
        exact ⟨rfl, rest, rfl⟩

theorem containsL_iff (pat l : List Char) :
    containsL pat l = true ↔ ∃ l1 l2, l = l1 ++ pat ++ l2 := by
  induction l with
  | nil =>
    simp only [containsL, startsWithL_iff]
    constructor
    · rintro ⟨rest, h⟩
      exact ⟨[], rest, by simpa using h⟩
    · rintro ⟨l1, l2, h⟩
      refine ⟨l2, ?_⟩
      rcases List.append_eq_nil.mp (List.append_eq_nil.mp h.symm).1 with ⟨rfl, rfl⟩
      simpa using h
  | cons c cs ih =>
    simp only [containsL, Bool.or_eq_true, startsWithL_iff, ih]
    constructor
    · rintro (⟨rest, h⟩ | ⟨l1, l2, rfl⟩)
      · exact ⟨[], rest, by simpa using h⟩
      · exact ⟨c :: l1, l2, by simp⟩
    · rintro ⟨l1, l2, h⟩
      cases l1 with
      | nil => exact Or.inl ⟨l2, by simpa using h⟩
      | cons d ds =>
        rcases List.cons.injEq .. ▸ h with ⟨rfl, htail⟩
        exact Or.inr ⟨ds, l2, by simpa using htail⟩

theorem strIncludes_iff (s pat : String) :
    strIncludes s pat = true ↔ ∃ pre post : String, s = pre ++ pat ++ post := by
  unfold strIncludes
  rw [containsL_iff]
  constructor
  · rintro ⟨l1, l2, h⟩
    refine ⟨⟨l1⟩, ⟨l2⟩, ?_⟩
    apply String.ext
    simpa [String.data_append] using h
  · rintro ⟨pre, post, rfl⟩
    exact ⟨pre.data, post.data, by simp [String.data_append]⟩

/-- Result of body parsing: a JSON value, a raw text body, or `null`
(the normalization of an empty text body). -/
inductive BodyData
  | json (v : JVal)
  | text (s : String)
  | null

/-- A response as seen by `request` after `fetch` resolves: status,
declared content type, and what `response.json()` / `response.text()`
would yield. -/
structure HttpResponse where
  status : Int
  contentType : Option String
  jsonBody : JVal
  textBody : String

/-- The source's test `contentType?.includes('application/json')`. -/
def parsesAsJson : Option String → Bool
  | some ct => strIncludes ct "application/json"
  | none => false

/-- The claim's wording: parse as JSON when the content type contains
`"json"`. -/
def parsesAsJsonSpec : Option String → Bool
  | some ct => strIncludes ct "json"
  | none => false

/-- Shallow embedding of the body-parsing step of `request`:
`data = response.json()` when the content type matches, otherwise
`text || null`. -/
def parseResponseBody (r : HttpResponse) : BodyData :=
  if parsesAsJson r.contentType then .json r.jsonBody
  else if r.textBody = "" then .null
  else .text r.textBody

/-- The `ApiError` class: message, numeric status, parsed body. -/
structure ApiErrorV where
  message : String
  status : Int
  data : BodyData

/-- `response.ok`: status in [200, 299]. -/
def responseOk (status : Int) : Bool := 200 ≤ status && status ≤ 299

/-- Shallow embedding of `request` after the fetch resolves: parse the
body, return it on a 2xx status, otherwise throw an `ApiError` carrying
the status and the parsed body. The result is fully determined by the
response; no retry decision is made here. -/
def request (r : HttpResponse) : Except ApiErrorV BodyData :=
  let data := parseResponseBody r
  if responseOk r.status then .ok data
  else .error { message := "Request failed with status " ++ toString r.status
                status := r.status
                data := data }

/-- C5 counterexample: a `text/json` content type contains `"json"`, so
the claim says it is parsed as JSON, but the code tests for
`"application/json"` and returns the raw text instead. -/
theorem parsesAsJson_counterexample :
    parsesAsJsonSpec (some "text/json") = true ∧
    parsesAsJson (some "text/json") = false ∧
    parseResponseBody { status := 200, contentType := some "text/json",
                        jsonBody := .jnull, textBody := "x" } = .text "x" := by
  have h1 : parsesAsJson (some "text/json") = false := by decide
  refine ⟨by decide, h1, ?_⟩
  simp [parseResponseBody, h1, show ("x" : String) ≠ "" from by decide]

/-- C5 amended: the body is parsed as JSON exactly when the declared
content type contains the substring `"application/json"`; otherwise the
raw text is returned, with empty text normalized to `null`. -/
theorem request_parses_json_iff (r : HttpResponse) :
    (parseResponseBody r = .json r.jsonBody ↔
      ∃ pre post : String, r.contentType = some (pre ++ "application/json" ++ post)) ∧
    ((∀ pre post : String, r.contentType ≠ some (pre ++ "application/json" ++ post)) →
      parseResponseBody r = if r.textBody = "" then .null else .text r.textBody) := by
  have hiff : parsesAsJson r.contentType = true ↔
      ∃ pre post : String, r.contentType = some (pre ++ "application/json" ++ post) := by
    cases hct : r.contentType with
    | none => simp [parsesAsJson]
    | some ct =>
      simp only [parsesAsJson, strIncludes_iff, Option.some.injEq]
  constructor
  · rw [← hiff]
    unfold parseResponseBody
    by_cases hj : parsesAsJson r.contentType
    · simp [hj]
    · by_cases ht : r.textBody = "" <;> simp [hj, ht]
  · intro h
    have hj : parsesAsJson r.contentType = false := by
      cases htr : parsesAsJson r.contentType
      · rfl
      · rcases hiff.mp htr with ⟨pre, post, hc⟩
        exact absurd hc (h pre post)
    unfold parseResponseBody
    simp [hj]

/-- Witness for C5's amended theorem at a concrete JSON response. -/
theorem request_parses_json_iff_witness :
    parseResponseBody { status := 200, contentType := some "application/json; charset=utf-8",
                        jsonBody := .jnull, textBody := "" } = .json .jnull :=
  (request_parses_json_iff _).1.mpr ⟨"", "; charset=utf-8", by decide⟩

/-- C6: `request` returns the parsed body exactly on a 2xx status, and on
any other status throws an `ApiError` whose `status` is the response's
status and whose `data` is the parsed body (error payloads included);
the error value is fully determined by status and body, so the request
layer makes no retry decision. -/
theorem request_status_correct (r : HttpResponse) :
    (200 ≤ r.status ∧ r.status ≤ 299 → request r = .ok (parseResponseBody r)) ∧
    (¬(200 ≤ r.status ∧ r.status ≤ 299) →
      request r = .error { message := "Request failed with status " ++ toString r.status
                           status := r.status
                           data := parseResponseBody r }) := by
  constructor
  · intro h
    have hok : responseOk r.status = true := by
      simp [responseOk, h.1, h.2]
    simp [request, hok]
  · intro h
    have hok : responseOk r.status = false := by
      simp only [responseOk, Bool.and_eq_false_iff, decide_eq_false_iff_not]
      omega
    simp [request, hok]

/-- Witness for C6 at a concrete 404 response. -/
theorem request_status_correct_witness :
    ¬(200 ≤ (404 : Int) ∧ (404 : Int) ≤ 299) ∧
    request { status := 404, contentType := none, jsonBody := .jnull, textBody := "" } =
      .error { message := "Request failed with status " ++ toString (404 : Int)
               status := 404
               data := parseResponseBody { status := 404, contentType := none,
                                           jsonBody := .jnull, textBody := "" } } :=
  ⟨by decide, (request_status_correct _).2 (by decide)⟩

/-! ## Error classification (src/src/lib/error-handler.ts) -/

/-- The `HTTP_ERROR_MESSAGES` status-to-message table. -/
def HTTP_ERROR_MESSAGES : Int → Option String
  | 400 => some "Invalid request. Please check your input."
  | 401 => some "Please sign in to continue."
  | 403 => some "You don\x27t have permission to perform this action."
  | 404 => some "The requested resource was not found."
  | 408 => some "Request timed out. Please try again."
  | 409 => some "A conflict occurred. Please refresh and try again."
  | 422 => some "Validation failed. Please check your input."
  | 429 => some "Too many requests. Please wait a moment."
  | 500 => some "Server error. Please try again later."
  | 502 => some "Service temporarily unavailable. Please try again."
  | 503 => some "Service unavailable. Please try again later."
  | 504 => some "Request timed out. Please try again."
  | _ => none

/-- `DEFAULT_ERROR_MESSAGE` from the source. -/
def DEFAULT_ERROR_MESSAGE : String := "Something went wrong. Please try again."

/-- `NETWORK_ERROR_MESSAGE` from the source. -/
def NETWORK_ERROR_MESSAGE : String := "Network error. Please check your connection."

/-- JS property lookup on a parsed JSON object; a duplicated key keeps
the last occurrence, as `JSON.parse` does. -/
def jget (fields : List (String × JVal)) (key : String) : Option JVal :=
  match fields.reverse.find? (fun p => p.1 == key) with
  | some p => some p.2
  | none => none

/-- The `errors` array branch of `extractErrorMessage`: the first element
of a nonempty `errors` array, as a string or as `{message}`. -/
def errorsArrayMessage (fields : List (String × JVal)) : Option String :=
  match jget fields "errors" with
  | some (.jarr (firstError :: _)) =>
    match firstError with
    | .jstr s => some s
    | .jobj ofields =>
      match jget ofields "message" with
      | some (.jstr m) => some m
      | _ => none
    | _ => none
  | _ => none

/-- Shallow embedding of `extractErrorMessage(data)`: on a non-object
payload, `null`; otherwise the first of `message` as string, `error` as
string, `error.message` as string, or the first element of an `errors`
array. -/
def extractErrorMessage : JVal → Option String
  | .jobj fields =>
    match jget fields "message" with
    | some (.jstr m) => some m
    | _ =>
      match jget fields "error" with
      | some (.jstr e) => some e
      | some (.jobj efields) =>
        match jget efields "message" with
        | some (.jstr m) => some m
        | _ => errorsArrayMessage fields
      | _ => errorsArrayMessage fields
  | _ => none

/-- The classification record produced by `parseError`. -/
structure ParsedError where
  message : String
  isNetworkError : Bool
  isAuthError : Bool
  status : Option Int

/-- The error kinds distinguished by `parseError`'s `instanceof` chain:
an `ApiError`, a fetch `TypeError`, an `AbortError`, a generic `Error`,
a thrown string, or anything else. -/
inductive AppException
  | api (status : Int) (data : JVal)
  | fetchTypeError (msg : String)
  | abortError
  | generic (msg : String)
  | strErr (s : String)
  | otherValue

/-- JS `a || b` on a possibly absent string: the empty string is falsy
and falls through to `b`. -/
def jsOrElse (a : Option String) (b : String) : String :=
  match a with
  | some s => if s = "" then b else s
  | none => b

/-- Shallow embedding of `parseError(error)`. -/
def parseError : AppException → ParsedError
  | .api status data =>
    { message := jsOrElse (extractErrorMessage data)
        (jsOrElse (HTTP_ERROR_MESSAGES status) DEFAULT_ERROR_MESSAGE)
      isNetworkError := false
      isAuthError := status == 401 || status == 403
      status := some status }
  | .fetchTypeError _ =>
    { message := NETWORK_ERROR_MESSAGE, isNetworkError := true, isAuthError := false,
      status := none }
  | .abortError =>
    { message := "Request was cancelled.", isNetworkError := false, isAuthError := false,
      status := none }
  | .generic msg =>
    { message := jsOrElse (some msg) DEFAULT_ERROR_MESSAGE, isNetworkError := false,
      isAuthError := false, status := none }
  | .strErr s =>
    { message := s, isNetworkError := false, isAuthError := false, status := none }
  | .otherValue =>
    { message := DEFAULT_ERROR_MESSAGE, isNetworkError := false, isAuthError := false,
      status := none }

/-- The claim's resolution order, taken literally: the extracted message
whenever extraction yields one, else the table, else the fallback. -/
def resolveMessageClaim (status : Int) (data : JVal) : String :=
  ((extractErrorMessage data).orElse (fun _ => HTTP_ERROR_MESSAGES status)).getD
    DEFAULT_ERROR_MESSAGE

/-- The amended resolution order: an extracted message is used only when
it is nonempty (JS `||` treats `""` as absent), else the table, else the
fallback. -/
def resolveMessageAmended (status : Int) (data : JVal) : String :=
  match extractErrorMessage data with
  | some m => if m = "" then (HTTP_ERROR_MESSAGES status).getD DEFAULT_ERROR_MESSAGE else m
  | none => (HTTP_ERROR_MESSAGES status).getD DEFAULT_ERROR_MESSAGE

/-- Every entry of the status table is a nonempty string. -/
theorem HTTP_ERROR_MESSAGES_ne_empty (status : Int) (m : String)
    (h : HTTP_ERROR_MESSAGES status = some m) : m ≠ "" := by
  unfold HTTP_ERROR_MESSAGES at h
  split at h
  all_goals first
    | (cases h; decide)
    | exact Option.noConfusion h

/-- C7 counterexample: for the payload `{message: ""}` at status 404,
extraction yields the (empty) message, so the claimed order resolves to
`""`, but the code's `||` chain skips it and uses the status table. -/
theorem parseError_message_counterexample :
    (parseError (.api 404 (.jobj [("message", .jstr "")]))).message =
      "The requested resource was not found." ∧
    extractErrorMessage (.jobj [("message", .jstr "")]) = some "" ∧
    resolveMessageClaim 404 (.jobj [("message", .jstr "")]) = "" := by
  refine ⟨?_, ?_, ?_⟩ <;> decide

/-- C7 amended: for a structured HTTP error, `isAuthError` holds exactly
for statuses 401 and 403, the numeric status is carried through, and the
message is the extracted payload message when nonempty, else the static
per-status table entry, else the generic fallback. -/
theorem parseError_api_correct (status : Int) (data : JVal) :
    ((parseError (.api status data)).isAuthError = true ↔ status = 401 ∨ status = 403) ∧
    (parseError (.api status data)).status = some status ∧
    (parseError (.api status data)).isNetworkError = false ∧
    (parseError (.api status data)).message = resolveMessageAmended status data := by
  refine ⟨?_, rfl, rfl, ?_⟩
  · simp [parseError]
  · have htab : jsOrElse (HTTP_ERROR_MESSAGES status) DEFAULT_ERROR_MESSAGE =
        (HTTP_ERROR_MESSAGES status).getD DEFAULT_ERROR_MESSAGE := by
      rcases h : HTTP_ERROR_MESSAGES status with _ | m
      · rfl
      · simp [jsOrElse, HTTP_ERROR_MESSAGES_ne_empty status m h]
    show jsOrElse (extractErrorMessage data)
        (jsOrElse (HTTP_ERROR_MESSAGES status) DEFAULT_ERROR_MESSAGE) =
      resolveMessageAmended status data
    rw [htab]
    unfold resolveMessageAmended jsOrElse
    rcases extractErrorMessage data with _ | m <;> rfl

/-- Witness for C7's amended theorem at status 401 with a null payload. -/
theorem parseError_api_correct_witness :
    (parseError (.api 401 .jnull)).isAuthError = true :=
  (parseError_api_correct 401 .jnull).1.mpr (Or.inl rfl)

/-! ## Example entity and optimistic mutations (src/unnamed/part_001, part_007) -/

/-- `Example['status']` from the source. -/
inductive ExampleStatus
  | draft
  | active
  | archived
  deriving DecidableEq

/-- The `Example` entity. -/
structure Example where
  id : String
  title : String
  description : String
  status : ExampleStatus
  createdAt : String
  updatedAt : String
  deriving DecidableEq

/-- `PaginatedResponse<Example>`. -/
structure PaginatedResponse where
  data : List Example
  total : Int
  limit : Int
  offset : Int
  deriving DecidableEq

/-- `UpdateExampleInput`: the optional patch fields. -/
structure UpdateExampleInput where
  title : Option String := none
  description : Option String := none
  status : Option ExampleStatus := none

/-- The spread `{ ...item, ...data, updatedAt: new Date().toISOString() }`:
patch fields override, `updatedAt` is stamped with the current time. -/
def applyUpdate (e : Example) (patch : UpdateExampleInput) (now : String) : Example :=
  { id := e.id
    title := patch.title.getD e.title
    description := patch.description.getD e.description
    status := patch.status.getD e.status
    createdAt := e.createdAt
    updatedAt := now }

/-- The slice of the query cache the example mutations touch: the detail
entries (keyed by id) and the parameter-less list entry
`exampleKeys.list()`. -/
structure ExampleCache where
  detail : String → Option Example
  list : Option PaginatedResponse

/-- The context snapshotted by `onMutate` for rollback. -/
structure MutationSnapshot where
  previousExample : Option Example
  previousList : Option PaginatedResponse

/-- `queryClient.setQueryData(exampleKeys.detail(id), v)` (with `none`
for `removeQueries`). -/
def setDetail (c : ExampleCache) (id : String) (v : Option Example) : ExampleCache :=
  { c with detail := fun k => if k = id then v else c.detail k }

/-- Toasts emitted by the mutation callbacks. -/
inductive Toast
  | success (msg : String)
  | error (msg : String)
  deriving DecidableEq

/-- Whether a toast is a failure toast. -/
def Toast.isError : Toast → Bool
  | .error _ => true
  | _ => false

/-- Shallow embedding of `useUpdateExampleMutation.onMutate`: snapshot
detail and list, then optimistically patch the detail entry (when
present) and the matching item of the cached list (when present). -/
def updateOnMutate (c : ExampleCache) (id : String) (patch : UpdateExampleInput)
    (now : String) : ExampleCache × MutationSnapshot :=
  let previousExample := c.detail id
  let previousList := c.list
  let c1 := match previousExample with
    | some prev => setDetail c id (some (applyUpdate prev patch now))
    | none => c
  let c2 := match previousList with
    | some prevL =>
      { c1 with list := some { prevL with
          data := prevL.data.map (fun item =>
            if item.id = id then applyUpdate item patch now else item) } }
    | none => c1
  (c2, { previousExample := previousExample, previousList := previousList })

/-- Shallow embedding of `useUpdateExampleMutation.onError`: restore the
snapshotted detail and list entries and emit one failure toast with
`error.message || 'Failed to update example'`. -/
def updateOnError (c : ExampleCache) (id : String) (ctx : MutationSnapshot)
    (errMsg : String) : ExampleCache × List Toast :=
  let c1 := match ctx.previousExample with
    | some prev => setDetail c id (some prev)
    | none => c
  let c2 := match ctx.previousList with
    | some prevL => { c1 with list := some prevL }
    | none => c1
  (c2, [Toast.error (if errMsg = "" then "Failed to update example" else errMsg)])

/-- C2: when the detail cache holds a value and the write fails, running
`onMutate` then `onError` restores the detail entry and the
parameter-less list entry to exactly their snapshotted values, and
exactly one failure toast is emitted. -/
theorem update_rollback_correct (c : ExampleCache) (id : String)
    (patch : UpdateExampleInput) (now errMsg : String) (prev : Example)
    (hdetail : c.detail id = some prev) :
    (updateOnError (updateOnMutate c id patch now).1 id
        (updateOnMutate c id patch now).2 errMsg).1.detail id = some prev ∧
    (updateOnError (updateOnMutate c id patch now).1 id
        (updateOnMutate c id patch now).2 errMsg).1.list = c.list ∧
    ((updateOnError (updateOnMutate c id patch now).1 id
        (updateOnMutate c id patch now).2 errMsg).2.filter Toast.isError).length = 1 := by
  rcases hl : c.list with _ | prevL <;>
    simp [updateOnMutate, updateOnError, setDetail, hdetail, hl, Toast.isError]

/-- Witness entity for the spec's optimistic-update example. -/
def exampleA : Example :=
  { id := "1", title := "A", description := "", status := .active,
    createdAt := "", updatedAt := "" }

/-- Witness cache: the detail entry for id "1" holds `exampleA`. -/
def cacheEx : ExampleCache :=
  { detail := fun k => if k = "1" then some exampleA else none, list := none }

/-- Witness for C2: a detail cache holding `{id:"1", title:"A"}` mutated
with `{title:"B"}` reads `{id:"1", title:"A"}` again after the failure. -/
theorem update_rollback_correct_witness :
    (updateOnError (updateOnMutate cacheEx "1" { title := some "B" } "t1").1 "1"
        (updateOnMutate cacheEx "1" { title := some "B" } "t1").2 "boom").1.detail "1" =
      some exampleA :=
  (update_rollback_correct cacheEx "1" { title := some "B" } "t1" "boom" exampleA rfl).1

/-- Shallow embedding of `useDeleteExampleMutation.onMutate`: snapshot,
filter the item out of the cached list while decrementing `total`
unconditionally, then remove the detail entry. -/
def deleteOnMutate (c : ExampleCache) (id : String) : ExampleCache × MutationSnapshot :=
  let previousExample := c.detail id
  let previousList := c.list
  let c1 := match previousList with
    | some prevL =>
      { c with list := some { prevL with
          data := prevL.data.filter (fun item => item.id != id),
          total := prevL.total - 1 } }
    | none => c
  let c2 := setDetail c1 id none
  (c2, { previousExample := previousExample, previousList := previousList })

/-- C10: whenever a list response is cached at delete-mutation start, the
optimistic update sets `total` to the previous total minus one even when
no cached item carries the deleted id — the data array is unchanged
while `total` still drops. -/
theorem delete_total_decrement (c : ExampleCache) (id : String)
    (prevL : PaginatedResponse) (hlist : c.list = some prevL)
    (habsent : ∀ item ∈ prevL.data, item.id ≠ id) :
    ∃ newL, (deleteOnMutate c id).1.list = some newL ∧
      newL.data = prevL.data ∧ newL.total = prevL.total - 1 := by
  have hdata : prevL.data.filter (fun item => item.id != id) = prevL.data := by
    rw [List.filter_eq_self]
    intro a ha
    simpa using habsent a ha
  refine ⟨⟨prevL.data.filter (fun item => item.id != id), prevL.total - 1,
    prevL.limit, prevL.offset⟩, ?_, hdata, rfl⟩
  simp [deleteOnMutate, setDetail, hlist]

/-- Witness cache for C10: a list of one item with id "1" and total 3. -/
def cacheDel : ExampleCache :=
  { detail := fun _ => none,
    list := some { data := [exampleA], total := 3, limit := 10, offset := 0 } }

/-- Witness for C10: deleting the absent id "99" keeps the single cached
item but drops `total` from 3 to 2. -/
theorem delete_total_decrement_witness :
    ∃ newL, (deleteOnMutate cacheDel "99").1.list = some newL ∧
      newL.data = [exampleA] ∧ newL.total = 3 - 1 :=
  delete_total_decrement cacheDel "99" { data := [exampleA], total := 3, limit := 10, offset := 0 }
    rfl (by decide)

/-! ## Form validation schemas (src/unnamed/part_004)

The Zod string combinators run their checks and transforms in chain
order: `emailSchema = z.string().min(1).email().toLowerCase().trim()`
runs both checks on the raw input and only then lowercases and trims.
All checks of one string schema run (a failing check does not abort),
and an object-level `.refine` runs as long as every field parsed to a
value, so field-check failures do not suppress the refinement. -/

/-- Characters the Zod email pattern allows in the local part. -/
def isEmailLocalChar (c : Char) : Bool :=
  c.isAlpha || c.isDigit || c == '_' || c == Char.ofNat 39 || c == '+' || c == '-' || c == '.'

/-- Characters the Zod email pattern allows as the last local-part
character. -/
def isEmailLocalEnd (c : Char) : Bool :=
  c.isAlpha || c.isDigit || c == '_' || c == '+' || c == '-'

/-- No two consecutive dots anywhere (the pattern's second lookahead). -/
def noDoubleDot : List Char → Bool
  | c :: d :: rest => !(c == '.' && d == '.') && noDoubleDot (d :: rest)
  | _ => true

/-- Split at the first occurrence of `ch`, or `none` when absent. -/
def splitAtChar (ch : Char) : List Char → Option (List Char × List Char)
  | [] => none
  | c :: cs =>
    if c = ch then some ([], cs)
    else
      match splitAtChar ch cs with
      | some (a, b) => some (c :: a, b)
      | none => none

/-- Split on every dot. -/
def splitDots : List Char → List (List Char)
  | [] => [[]]
  | c :: cs =>
    let rest := splitDots cs
    if c = '.' then [] :: rest
    else
      match rest with
      | [] => [[c]]
      | r :: rs => (c :: r) :: rs

/-- One domain label: an alphanumeric first character, then alphanumeric
characters or hyphens. -/
def labelOk (l : List Char) : Bool :=
  match l with
  | [] => false
  | c :: cs => (c.isAlpha || c.isDigit) && cs.all (fun d => d.isAlpha || d.isDigit || d == '-')

/-- The final domain component: at least two letters. -/
def tldOk (l : List Char) : Bool :=
  decide (l.length ≥ 2) && l.all Char.isAlpha

/-- The local part: allowed characters, ending in one of the restricted
last characters. -/
def localPartOk (l : List Char) : Bool :=
  match l.reverse with
  | [] => false
  | lastc :: _ => l.all isEmailLocalChar && isEmailLocalEnd lastc

/-- The domain: one or more labels followed by a final all-letter
component of length at least two. -/
def domainOk (l : List Char) : Bool :=
  match (splitDots l).reverse with
  | tld :: labels => !labels.isEmpty && tldOk tld && labels.all labelOk
  | [] => false

/-- The Zod email pattern, embedded structurally: not starting with a
dot, no two consecutive dots, and a local part and domain split at the
single `@`. -/
def emailCheck (s : String) : Bool :=
  let cs := s.data
  (match cs with
   | [] => true
   | c :: _ => c != '.') &&
  noDoubleDot cs &&
  (match splitAtChar '@' cs with
   | some (loc, domain) => localPartOk loc && domainOk domain
   | none => false)

/-- JS whitespace test for `String.prototype.trim` (ASCII subset). -/
def isJsSpace (c : Char) : Bool := c == ' ' || c == '\t' || c == '\n' || c == '\r'

/-- Drop leading JS whitespace. -/
def dropLeadingSpace : List Char → List Char
  | [] => []
  | c :: cs => if isJsSpace c then dropLeadingSpace cs else c :: cs

/-- JS `s.trim()`: leading and trailing whitespace removed. -/
def jsTrim (s : String) : String :=
  ⟨dropLeadingSpace ((dropLeadingSpace s.data.reverse).reverse)⟩

/-- ASCII lowercase of one character, as `String.prototype.toLowerCase`
does for ASCII input. -/
def jsCharToLower (c : Char) : Char :=
  if 'A' ≤ c && c ≤ 'Z' then Char.ofNat (c.toNat + 32) else c

/-- JS `s.toLowerCase()` on ASCII input. -/
def jsToLower (s : String) : String := ⟨s.data.map jsCharToLower⟩

/-- The issue messages of `emailSchema`'s checks on the raw input, in
chain order: `min(1)` then `email`. -/
def emailIssues (s : String) : List String :=
  (if s.length < 1 then ["Email is required"] else []) ++
  (if emailCheck s then [] else ["Please enter a valid email address"])

/-- Shallow embedding of `emailSchema.parse`: run both checks on the raw
input, then apply `.toLowerCase()` and `.trim()` to the value. -/
def emailParse (s : String) : Except (List String) String :=
  match emailIssues s with
  | [] => .ok (jsTrim (jsToLower s))
  | issues => .error issues

/-- The issue messages of `strongPasswordSchema` on a raw input, in
chain order. -/
def strongPasswordIssues (s : String) : List String :=
  (if s.length < 1 then ["Password is required"] else []) ++
  (if s.length < 8 then ["Password must be at least 8 characters"] else []) ++
  (if s.length > 128 then ["Password must be no more than 128 characters"] else []) ++
  (if s.data.any (fun c => 'A' ≤ c && c ≤ 'Z') then []
   else ["Password must contain at least one uppercase letter"]) ++
  (if s.data.any (fun c => 'a' ≤ c && c ≤ 'z') then []
   else ["Password must contain at least one lowercase letter"]) ++
  (if s.data.any (fun c => '0' ≤ c && c ≤ '9') then []
   else ["Password must contain at least one number"]) ++
  (if s.data.any (fun c => !(c.isAlpha || c.isDigit)) then []
   else ["Password must contain at least one special character"])

/-- The issue messages of the signup `confirmPassword` field schema
`z.string().min(1, 'Please confirm your password')`. -/
def confirmPasswordIssues (s : String) : List String :=
  if s.length < 1 then ["Please confirm your password"] else []

/-- One validation failure: a field path and a message. -/
structure FieldIssue where
  path : List String
  message : String
  deriving DecidableEq

/-- A raw signup form input. -/
structure SignupInput where
  email : String
  password : String
  confirmPassword : String

/-- Shallow embedding of `signupSchema` validation: every field's issues
at that field's path, then the `.refine` equality check attaching
`'Passwords do not match'` at path `confirmPassword`. -/
def signupIssues (input : SignupInput) : List FieldIssue :=
  (emailIssues input.email).map (fun m => FieldIssue.mk ["email"] m) ++
  (strongPasswordIssues input.password).map (fun m => FieldIssue.mk ["password"] m) ++
  (confirmPasswordIssues input.confirmPassword).map
    (fun m => FieldIssue.mk ["confirmPassword"] m) ++
  (if input.password = input.confirmPassword then []
   else [FieldIssue.mk ["confirmPassword"] "Passwords do not match"])

theorem emailIssues_mem (s m : String) (hm : m ∈ emailIssues s) :
    m = "Email is required" ∨ m = "Please enter a valid email address" := by
  unfold emailIssues at hm
  rcases List.mem_append.mp hm with h | h <;> split at h <;> simp_all

theorem strongPasswordIssues_mem (s m : String) (hm : m ∈ strongPasswordIssues s) :
    m ∈ ["Password is required", "Password must be at least 8 characters",
      "Password must be no more than 128 characters",
      "Password must contain at least one uppercase letter",
      "Password must contain at least one lowercase letter",
      "Password must contain at least one number",
      "Password must contain at least one special character"] := by
  unfold strongPasswordIssues at hm
  simp only [List.mem_append] at hm
  rcases hm with ((((((h | h) | h) | h) | h) | h) | h) <;> split at h <;> simp_all

theorem confirmPasswordIssues_mem (s m : String) (hm : m ∈ confirmPasswordIssues s) :
    m = "Please confirm your password" := by
  unfold confirmPasswordIssues at hm
  split at hm <;> simp_all

/-- Any signup issue carrying the mismatch message is the refinement's
issue at path `confirmPassword`. -/
theorem signupIssues_mismatch_shape (input : SignupInput) (i : FieldIssue)
    (hi : i ∈ signupIssues input) (hmsg : i.message = "Passwords do not match") :
    i = FieldIssue.mk ["confirmPassword"] "Passwords do not match" := by
  unfold signupIssues at hi
  simp only [List.mem_append] at hi
  rcases hi with ((h | h) | h) | h
  · rcases List.mem_map.mp h with ⟨m, hm, rfl⟩
    rcases emailIssues_mem _ _ hm with rfl | rfl <;> simp_all
  · rcases List.mem_map.mp h with ⟨m, hm, rfl⟩
    have := strongPasswordIssues_mem _ _ hm
    simp_all
  · rcases List.mem_map.mp h with ⟨m, hm, rfl⟩
    have := confirmPasswordIssues_mem _ _ hm
    simp_all
  · split at h <;> simp_all

/-- C4: whenever `password` and `confirmPassword` differ, signup
validation yields exactly one mismatch issue, it sits at the
`confirmPassword` path, and no issue at the `password` path carries the
mismatch message — independently of whether `password` satisfies the
strong-password rules. -/
theorem signup_mismatch_single_error (input : SignupInput)
    (hne : input.password ≠ input.confirmPassword) :
    ((signupIssues input).filter
      (fun i => i.message == "Passwords do not match")).length = 1 ∧
    (∀ i ∈ signupIssues input, i.message = "Passwords do not match" →
      i.path = ["confirmPassword"]) ∧
    (∀ i ∈ signupIssues input, i.path = ["password"] →
      i.message ≠ "Passwords do not match") := by
  refine ⟨?_, ?_, ?_⟩
  · have hfilter : ∀ (msgs : List String) (p : List String),
        (∀ m ∈ msgs, m ≠ "Passwords do not match") →
        ((msgs.map (fun m => FieldIssue.mk p m)).filter
          (fun i => i.message == "Passwords do not match")) = [] := by
      intro msgs p hmsgs
      rw [List.filter_eq_nil_iff]
      intro i hi
      rcases List.mem_map.mp hi with ⟨m, hm, rfl⟩
      simpa using hmsgs m hm
    unfold signupIssues
    rw [List.filter_append, List.filter_append, List.filter_append]
    rw [hfilter _ _ (fun m hm => by rcases emailIssues_mem _ _ hm with rfl | rfl <;> decide),
      hfilter _ _ (fun m hm => by
        have := strongPasswordIssues_mem _ _ hm
        simp only [List.mem_cons, List.not_mem_nil, or_false] at this
        rcases this with rfl | rfl | rfl | rfl | rfl | rfl | rfl <;> decide),
      hfilter _ _ (fun m hm => by rw [confirmPasswordIssues_mem _ _ hm]; decide)]
    simp [hne]
  · intro i hi hmsg
    rw [signupIssues_mismatch_shape input i hi hmsg]
  · intro i hi hpath hmsg
    have := signupIssues_mismatch_shape input i hi hmsg
    rw [this] at hpath
    simp at hpath

/-- Witness for C4: an invalid password `"x"` and confirmation `"y"`
still yield exactly one mismatch issue. -/
theorem signup_mismatch_single_error_witness :
    ((signupIssues (SignupInput.mk "a@b.co" "x" "y")).filter
      (fun i => i.message == "Passwords do not match")).length = 1 :=
  (signup_mismatch_single_error (SignupInput.mk "a@b.co" "x" "y") (by decide)).1

/-- C8 counterexample: the email checks run on the raw input, so a valid
address wrapped in whitespace is rejected even though its trimmed form
passes the email pattern — normalization does not run before
validation. -/
theorem email_trim_counterexample :
    emailParse " a@b.co " = .error ["Please enter a valid email address"] ∧
    jsTrim " a@b.co " = "a@b.co" ∧
    emailCheck "a@b.co" = true := by
  refine ⟨rfl, by decide, by decide⟩

/-- C8 amended: the `.toLowerCase().trim()` transforms run after the
`min(1)` and email checks, which see the raw input: any raw input that
passes both checks parses to its lowercased, trimmed value (so an
uppercase address is accepted and lowercased, but surrounding whitespace
makes validation fail). -/
theorem email_validation_order (s : String) (h1 : 1 ≤ s.length)
    (h2 : emailCheck s = true) :
    emailParse s = .ok (jsTrim (jsToLower s)) := by
  have hlt : ¬s.length < 1 := by omega
  simp [emailParse, emailIssues, hlt, h2]

/-- Witness for C8's amended theorem: `"A@B.co"` passes validation raw
and parses to `"a@b.co"`. -/
theorem email_validation_order_witness :
    emailParse "A@B.co" = .ok (jsTrim (jsToLower "A@B.co")) ∧
    jsTrim (jsToLower "A@B.co") = "a@b.co" :=
  ⟨email_validation_order "A@B.co" (by decide) (by decide), by decide⟩

/-! ## Theme resolution (src/unnamed/part_003) -/

/-- The effective color scheme. -/
inductive ColorScheme
  | light
  | dark
  deriving DecidableEq

/-- The persisted theme mode. -/
inductive ThemeMode
  | light
  | dark
  | system
  deriving DecidableEq

/-- Shallow embedding of the `colorScheme` memo:
`themeMode === 'system' ? (systemColorScheme ?? 'light') : themeMode`. -/
def resolveColorScheme (mode : ThemeMode) (systemScheme : Option ColorScheme) : ColorScheme :=
  match mode with
  | .system => systemScheme.getD .light
  | .light => .light
  | .dark => .dark

/-- The provider's state: the raw mode and whether the persisted
preference has been loaded once. -/
structure ThemeState where
  themeMode : ThemeMode
  isLoaded : Bool

/-- `useState('system')` and `useState(false)`. -/
def initialThemeState : ThemeState := ThemeState.mk .system false

/-- The stored-string validation
`stored === 'light' || stored === 'dark' || stored === 'system'`. -/
def parseStoredTheme : Option String → Option ThemeMode
  | some "light" => some .light
  | some "dark" => some .dark
  | some "system" => some .system
  | _ => none

/-- Shallow embedding of `loadThemePreference`: adopt a valid stored
mode, keep the current mode otherwise, and always finish loaded. -/
def loadThemePreference (stored : Option String) (s : ThemeState) : ThemeState :=
  ThemeState.mk ((parseStoredTheme stored).getD s.themeMode) true

/-- Shallow embedding of the provider's render: `null` until loaded,
the children afterwards. -/
def renderThemeProvider (s : ThemeState) (children : Nat) : Option Nat :=
  if s.isLoaded then some children else none

/-- C9: the effective scheme is the stored mode when it is light or
dark, the system-reported scheme when the mode is system, light when
the system reports neither; and the provider renders no children until
the persisted preference has been loaded once. -/
theorem theme_resolution_correct :
    (∀ systemScheme, resolveColorScheme .light systemScheme = .light) ∧
    (∀ systemScheme, resolveColorScheme .dark systemScheme = .dark) ∧
    (∀ s, resolveColorScheme .system (some s) = s) ∧
    resolveColorScheme .system none = .light ∧
    (∀ children, renderThemeProvider initialThemeState children = none) ∧
    (∀ children stored,
      renderThemeProvider (loadThemePreference stored initialThemeState) children =
        some children) :=
  ⟨fun _ => rfl, fun _ => rfl, fun _ => rfl, rfl, fun _ => rfl, fun _ _ => rfl⟩

end Starter
